import Mathlib

/-!
# libnovaproc boundary header (`bindings.h`)

A shallow embedding of the C header that fixes the boundary between the
contract-execution engine and its host: the two status enumerations, the
fixed-layout records, the callback tables and the exported prototypes.

The header carries declarations only.  Operations whose bodies live on the
other side of the header are given as separate definitions whose doc comment
says what they are modelled from.
-/

namespace Novaproc

/-! ## C types that occur in the header -/

/-- The C types used by `bindings.h`. Typedef'd structs are referred to by name. -/
inductive CType
  | void
  | bool
  | char
  | uint8_t
  | int32_t
  | uint64_t
  | size_t
  | named (n : String)
  | ptr (t : CType)
  | constPtr (t : CType)
  deriving DecidableEq, Repr

/-- Value range of the C types whose width the header fixes (`none` for the
others: `size_t` and `char`, whose range depends on the platform, and the
non-integer types). -/
def CType.range : CType → Option (Int × Int)
  | .bool => some (0, 1)
  | .uint8_t => some (0, 2 ^ 8 - 1)
  | .int32_t => some (-(2 ^ 31), 2 ^ 31 - 1)
  | .uint64_t => some (0, 2 ^ 64 - 1)
  | _ => none

/-- Whether the integer `n` is representable in the fixed-width C type `t`
(false for a type without a fixed range). -/
def CType.holds (t : CType) (n : Int) : Bool :=
  match t.range with
  | some (lo, hi) => decide (lo ≤ n) && decide (n ≤ hi)
  | none => false

/-! ## Status enumerations (header lines 17-63) -/

/-- `enum ErrnoValue`. -/
inductive ErrnoValue
  | Success
  | Other
  | OutOfGas
  deriving DecidableEq, Repr

/-- The enumerator values of `enum ErrnoValue`. -/
def ErrnoValue.code : ErrnoValue → Int
  | .Success => 0
  | .Other => 1
  | .OutOfGas => 2

/-- `typedef int32_t ErrnoValue;` -/
def ErrnoValue.carrier : CType := CType.int32_t

/-- `enum GoError`. -/
inductive GoError
  | None
  | Panic
  | BadArgument
  | OutOfGas
  | CannotSerialize
  | User
  | Unimplemented
  | Other
  deriving DecidableEq, Repr

/-- The enumerator values of `enum GoError`. -/
def GoError.code : GoError → Int
  | .None => 0
  | .Panic => 1
  | .BadArgument => 2
  | .OutOfGas => 3
  | .CannotSerialize => 4
  | .User => 5
  | .Unimplemented => 6
  | .Other => -1

/-- `typedef int32_t GoError;` -/
def GoError.carrier : CType := CType.int32_t

/-- The enumerators of `enum ErrnoValue`, in declaration order. -/
def ErrnoValue.variants : List ErrnoValue :=
  [.Success, .Other, .OutOfGas]

/-- The enumerators of `enum GoError`, in declaration order. -/
def GoError.variants : List GoError :=
  [.None, .Panic, .BadArgument, .OutOfGas, .CannotSerialize, .User, .Unimplemented, .Other]

/-- Modelled from the spec: the conversion from the `int32_t` a callback returns
to a `GoError`. Its body is not part of the header; the header documents it at
`GoError_Other` ("a fallback for the i32 to GoError conversion") and uses it in
the `db_read` example (`.into()`). Each enumerator value is read back as its
enumerator and anything else falls back to `Other`. -/
def GoError.ofInt32 (n : Int) : GoError :=
  if n = 0 then .None
  else if n = 1 then .Panic
  else if n = 2 then .BadArgument
  else if n = 3 then .OutOfGas
  else if n = 4 then .CannotSerialize
  else if n = 5 then .User
  else if n = 6 then .Unimplemented
  else .Other

/-- What a status stands for, independently of the taxonomy it is written in.
The names are those of the enumerators with the enum prefix dropped;
`ErrnoValue_Success` and `GoError_None` both stand for the absence of an error
("0 means no error"). -/
inductive Outcome
  | NoError
  | Panic
  | BadArgument
  | OutOfGas
  | CannotSerialize
  | User
  | Unimplemented
  | Other
  deriving DecidableEq, Repr

/-- Reading of an `ErrnoValue` enumerator. -/
def ErrnoValue.outcome : ErrnoValue → Outcome
  | .Success => .NoError
  | .Other => .Other
  | .OutOfGas => .OutOfGas

/-- Reading of a `GoError` enumerator. -/
def GoError.outcome : GoError → Outcome
  | .None => .NoError
  | .Panic => .Panic
  | .BadArgument => .BadArgument
  | .OutOfGas => .OutOfGas
  | .CannotSerialize => .CannotSerialize
  | .User => .User
  | .Unimplemented => .Unimplemented
  | .Other => .Other

/-- Reading of an integer as an `ErrnoValue`: the enumerator with that value. -/
def ErrnoValue.ofCode (n : Int) : Option ErrnoValue :=
  ErrnoValue.variants.find? (fun e => decide (e.code = n))

/-- Reading of an integer as a `GoError`: the enumerator with that value. -/
def GoError.ofCode (n : Int) : Option GoError :=
  GoError.variants.find? (fun e => decide (e.code = n))

/-! ## Fixed-layout records (header lines 169-211) -/

/-- A member of a C struct: its type and its name. -/
structure Field where
  type : CType
  name : String
  deriving DecidableEq, Repr

/-- A `typedef struct { ... } name;` of the header. -/
structure StructDecl where
  name : String
  fields : List Field
  deriving DecidableEq, Repr

/-- A `uint8_t`. -/
abbrev Byte := Fin 256

/-- The record `UnmanagedVector`. Pointers are addresses; `0` is the null pointer. -/
structure UnmanagedVector where
  is_none : Bool
  ptr : Nat
  len : Nat
  cap : Nat
  deriving DecidableEq, Repr

/-- The record `ByteSliceView`. -/
structure ByteSliceView where
  is_nil : Bool
  ptr : Nat
  len : Nat
  deriving DecidableEq, Repr

/-- The record `U8SliceView`. -/
structure U8SliceView where
  is_none : Bool
  ptr : Nat
  len : Nat
  deriving DecidableEq, Repr

/-- Declaration of `UnmanagedVector` (header lines 169-177). -/
def UnmanagedVector.decl : StructDecl :=
  { name := "UnmanagedVector"
    fields := [⟨.bool, "is_none"⟩, ⟨.ptr .uint8_t, "ptr"⟩, ⟨.size_t, "len"⟩, ⟨.size_t, "cap"⟩] }

/-- Declaration of `ByteSliceView` (header lines 186-193). -/
def ByteSliceView.decl : StructDecl :=
  { name := "ByteSliceView"
    fields := [⟨.bool, "is_nil"⟩, ⟨.constPtr .uint8_t, "ptr"⟩, ⟨.size_t, "len"⟩] }

/-- Declaration of `U8SliceView` (header lines 204-211). -/
def U8SliceView.decl : StructDecl :=
  { name := "U8SliceView"
    fields := [⟨.bool, "is_none"⟩, ⟨.constPtr .uint8_t, "ptr"⟩, ⟨.size_t, "len"⟩] }

/-! ## Memory shared by host and engine -/

/-- The byte-addressed memory of the process, with the engine's allocator
reduced to a break pointer: every address from `brk` on is unallocated. -/
structure Memory where
  cell : Nat → Byte
  brk : Nat

/-- The `n` bytes stored from address `p` on. -/
def Memory.read (m : Memory) (p : Nat) : Nat → List Byte
  | 0 => []
  | n + 1 => m.cell p :: m.read (p + 1) n

/-- Store one byte at address `p`. -/
def Memory.set (m : Memory) (p : Nat) (b : Byte) : Memory :=
  { m with cell := fun a => if a = p then b else m.cell a }

/-- Store the bytes `bs` from address `p` on, lowest address first. -/
def Memory.write (m : Memory) (p : Nat) : List Byte → Memory
  | [] => m
  | b :: bs => (m.set p b).write (p + 1) bs

/-- Reserve a region of `n` bytes; returns its address and the new memory. -/
def Memory.alloc (m : Memory) (n : Nat) : Nat × Memory :=
  (m.brk, { m with brk := m.brk + n })

/-- A nilable byte range (`Option<&[u8]>`, a Go `[]byte`) lying at address `p`:
when it is present, memory holds its bytes from `p` on. -/
def Memory.holds (m : Memory) (p : Nat) (b : Option (List Byte)) : Prop :=
  ∀ bs, b = some bs → m.read p bs.length = bs

/-- Modelled from the spec: `UnmanagedVector::new` (body not in the header).
"Created ... by the engine (`new`, default-absent, ...)": a present byte
sequence is moved into an engine-allocated region, an absent one gives the
absent buffer. -/
def UnmanagedVector.new (source : Option (List Byte)) (m : Memory) : UnmanagedVector × Memory :=
  match source with
  | some data =>
    let (p, m1) := m.alloc data.length
    ({ is_none := false, ptr := p, len := data.length, cap := data.length }, m1.write p data)
  | none => ({ is_none := true, ptr := 0, len := 0, cap := 0 }, m)

/-- Modelled from the spec: `new_unmanaged_vector` (prototype at header line
286, body not in the header). "`create(nullable, pointer, length)`: copies the
referenced bytes (or creates an absent buffer if the input is flagged nil) into
a newly allocated region; returns ownership to the caller." -/
def new_unmanaged_vector (nil : Bool) (ptr length : Nat) (m : Memory) : UnmanagedVector × Memory :=
  if nil then UnmanagedVector.new none m
  else UnmanagedVector.new (some (m.read ptr length)) m

/-- Modelled from the spec: `UnmanagedVector::consume` (body not in the header).
"`consume(OwnedBuffer)`: transfers the bytes into the caller's native memory
representation ...; returns no value if the buffer was absent." -/
def UnmanagedVector.consume (v : UnmanagedVector) (m : Memory) : Option (List Byte) :=
  if v.is_none then none else some (m.read v.ptr v.len)

/-! ## Borrowed View operations (spec section 4.2) -/

/-- Modelled from the spec: construction of a `ByteSliceView` "from a nilable
byte range" (body not in the header): the range is given by its address and
length, `none` is Go's nil. -/
def ByteSliceView.new (source : Option (Nat × Nat)) : ByteSliceView :=
  match source with
  | some (p, n) => { is_nil := false, ptr := p, len := n }
  | none => { is_nil := true, ptr := 0, len := 0 }

/-- Modelled from the spec: `U8SliceView::new` (used in the header's `db_read`
example, body not in the header), the engine-side view of an `Option<&[u8]>`. -/
def U8SliceView.new (source : Option (Nat × Nat)) : U8SliceView :=
  match source with
  | some (p, n) => { is_none := false, ptr := p, len := n }
  | none => { is_none := true, ptr := 0, len := 0 }

/-- Modelled from the spec: reading a `ByteSliceView` during the call it was
passed into (body not in the header). The header: `is_nil` is "True if and only
if the byte slice is nil in Go. If this is true, the other fields must be
ignored." -/
def ByteSliceView.read (v : ByteSliceView) (m : Memory) : Option (List Byte) :=
  if v.is_nil then none else some (m.read v.ptr v.len)

/-- Modelled from the spec: reading a `U8SliceView` (body not in the header).
The header: `is_none` is "True if and only if this is None." -/
def U8SliceView.read (v : U8SliceView) (m : Memory) : Option (List Byte) :=
  if v.is_none then none else some (m.read v.ptr v.len)

/-- A function-pointer member of a vtable: `ret (*name)(params)`. The header
gives the parameters of a function pointer without names. -/
structure FnPtr where
  ret : CType
  name : String
  params : List CType
  deriving DecidableEq, Repr

/-- A capability record `{ state, vtable }` together with the members of its
vtable struct. -/
structure Capability where
  name : String
  state : CType
  vtableName : String
  vtable : List FnPtr
  deriving DecidableEq, Repr

/-- `int32_t (*read_db)(db_t*, U8SliceView, UnmanagedVector*, UnmanagedVector*);` -/
def Db_vtable.read_db : FnPtr :=
  { ret := .int32_t
    name := "read_db"
    params := [.ptr (.named "db_t"), .named "U8SliceView",
      .ptr (.named "UnmanagedVector"), .ptr (.named "UnmanagedVector")] }

/-- `int32_t (*write_db)(db_t*, U8SliceView, U8SliceView, UnmanagedVector*);` -/
def Db_vtable.write_db : FnPtr :=
  { ret := .int32_t
    name := "write_db"
    params := [.ptr (.named "db_t"), .named "U8SliceView", .named "U8SliceView",
      .ptr (.named "UnmanagedVector")] }

/-- `int32_t (*remove_db)(db_t*, U8SliceView, UnmanagedVector*);` -/
def Db_vtable.remove_db : FnPtr :=
  { ret := .int32_t
    name := "remove_db"
    params := [.ptr (.named "db_t"), .named "U8SliceView", .ptr (.named "UnmanagedVector")] }

/-- `int32_t (*bank_transfer)(const api_t*, U8SliceView, U8SliceView, U8SliceView, UnmanagedVector*);` -/
def GoApi_vtable.bank_transfer : FnPtr :=
  { ret := .int32_t
    name := "bank_transfer"
    params := [.constPtr (.named "api_t"), .named "U8SliceView", .named "U8SliceView",
      .named "U8SliceView", .ptr (.named "UnmanagedVector")] }

/-- `int32_t (*query_external)(const querier_t*, U8SliceView, UnmanagedVector*, UnmanagedVector*);` -/
def Querier_vtable.query_external : FnPtr :=
  { ret := .int32_t
    name := "query_external"
    params := [.constPtr (.named "querier_t"), .named "U8SliceView",
      .ptr (.named "UnmanagedVector"), .ptr (.named "UnmanagedVector")] }

/-- `typedef struct { db_t *state; Db_vtable vtable; } Db;` -/
def Db : Capability :=
  { name := "Db"
    state := .ptr (.named "db_t")
    vtableName := "Db_vtable"
    vtable := [Db_vtable.read_db, Db_vtable.write_db, Db_vtable.remove_db] }

/-- `typedef struct { const api_t *state; GoApi_vtable vtable; } GoApi;` -/
def GoApi : Capability :=
  { name := "GoApi"
    state := .constPtr (.named "api_t")
    vtableName := "GoApi_vtable"
    vtable := [GoApi_vtable.bank_transfer] }

/-- `typedef struct { const querier_t *state; Querier_vtable vtable; } GoQuerier;` -/
def GoQuerier : Capability :=
  { name := "GoQuerier"
    state := .constPtr (.named "querier_t")
    vtableName := "Querier_vtable"
    vtable := [Querier_vtable.query_external] }

/-- The storage, bank and query capabilities. -/
def capabilities : List Capability := [Db, GoApi, GoQuerier]

/-- A request view passed to a callback: a `U8SliceView` by value. -/
def isRequestView (t : CType) : Bool :=
  decide (t = .named "U8SliceView")

/-- An output parameter of a callback: an `UnmanagedVector*`. -/
def isOutBuffer (t : CType) : Bool :=
  decide (t = .ptr (.named "UnmanagedVector"))

/-- The callback shape with `k` trailing output buffers: the capability's state
pointer first, then one or more request views, then exactly `k` pointers to an
`UnmanagedVector`, returning the `int32_t` status. -/
def callbackShape (k : Nat) (c : Capability) (f : FnPtr) : Bool :=
  match f.params with
  | [] => false
  | s :: rest =>
    decide (s = c.state)
      && !(rest.takeWhile isRequestView).isEmpty
      && (rest.dropWhile isRequestView).all isOutBuffer
      && decide ((rest.dropWhile isRequestView).length = k)
      && decide (f.ret = .int32_t)

/-- The shape of section 4.3, taken from the spec's words:
`(state, request-views..., out-result, out-error) → StatusCode`, that is, two
trailing output buffers. -/
def specCallbackShape (c : Capability) (f : FnPtr) : Bool :=
  callbackShape 2 c f

/-! ## Exported prototypes (header lines 250-311) -/

/-- A named parameter of a prototype. -/
structure Param where
  type : CType
  name : String
  deriving DecidableEq, Repr

/-- A function prototype `ret name(params);`. -/
structure Prototype where
  ret : CType
  name : String
  params : List Param
  deriving DecidableEq, Repr

/-- `UnmanagedVector decode_module_bytes(UnmanagedVector *errmsg, ByteSliceView module_bytes);` -/
def Proto.decode_module_bytes : Prototype :=
  { ret := .named "UnmanagedVector"
    name := "decode_module_bytes"
    params := [⟨.ptr (.named "UnmanagedVector"), "errmsg"⟩,
      ⟨.named "ByteSliceView", "module_bytes"⟩] }

/-- `UnmanagedVector decode_move_resource(Db db, UnmanagedVector *errmsg,
ByteSliceView struct_tag, ByteSliceView resource_bytes);` -/
def Proto.decode_move_resource : Prototype :=
  { ret := .named "UnmanagedVector"
    name := "decode_move_resource"
    params := [⟨.named "Db", "db"⟩, ⟨.ptr (.named "UnmanagedVector"), "errmsg"⟩,
      ⟨.named "ByteSliceView", "struct_tag"⟩, ⟨.named "ByteSliceView", "resource_bytes"⟩] }

/-- `UnmanagedVector decode_script_bytes(UnmanagedVector *errmsg, ByteSliceView script_bytes);` -/
def Proto.decode_script_bytes : Prototype :=
  { ret := .named "UnmanagedVector"
    name := "decode_script_bytes"
    params := [⟨.ptr (.named "UnmanagedVector"), "errmsg"⟩,
      ⟨.named "ByteSliceView", "script_bytes"⟩] }

/-- `void destroy_unmanaged_vector(UnmanagedVector v);` -/
def Proto.destroy_unmanaged_vector : Prototype :=
  { ret := .void
    name := "destroy_unmanaged_vector"
    params := [⟨.named "UnmanagedVector", "v"⟩] }

/-- `UnmanagedVector execute_contract(Db db, GoApi _api, GoQuerier _querier,
bool _is_verbose, uint64_t gas_limit, UnmanagedVector *errmsg,
ByteSliceView session_id, ByteSliceView sender, ByteSliceView message);` -/
def Proto.execute_contract : Prototype :=
  { ret := .named "UnmanagedVector"
    name := "execute_contract"
    params := [⟨.named "Db", "db"⟩, ⟨.named "GoApi", "_api"⟩, ⟨.named "GoQuerier", "_querier"⟩,
      ⟨.bool, "_is_verbose"⟩, ⟨.uint64_t, "gas_limit"⟩,
      ⟨.ptr (.named "UnmanagedVector"), "errmsg"⟩, ⟨.named "ByteSliceView", "session_id"⟩,
      ⟨.named "ByteSliceView", "sender"⟩, ⟨.named "ByteSliceView", "message"⟩] }

/-- `UnmanagedVector execute_script(Db db, GoApi _api, GoQuerier _querier,
bool _is_verbose, uint64_t gas_limit, UnmanagedVector *errmsg,
ByteSliceView session_id, ByteSliceView sender, ByteSliceView message);` -/
def Proto.execute_script : Prototype :=
  { ret := .named "UnmanagedVector"
    name := "execute_script"
    params := [⟨.named "Db", "db"⟩, ⟨.named "GoApi", "_api"⟩, ⟨.named "GoQuerier", "_querier"⟩,
      ⟨.bool, "_is_verbose"⟩, ⟨.uint64_t, "gas_limit"⟩,
      ⟨.ptr (.named "UnmanagedVector"), "errmsg"⟩, ⟨.named "ByteSliceView", "session_id"⟩,
      ⟨.named "ByteSliceView", "sender"⟩, ⟨.named "ByteSliceView", "message"⟩] }

/-- `UnmanagedVector initialize(Db db, bool _is_verbose, UnmanagedVector *errmsg,
ByteSliceView module_bundle);` -/
def Proto.initialize : Prototype :=
  { ret := .named "UnmanagedVector"
    name := "initialize"
    params := [⟨.named "Db", "db"⟩, ⟨.bool, "_is_verbose"⟩,
      ⟨.ptr (.named "UnmanagedVector"), "errmsg"⟩, ⟨.named "ByteSliceView", "module_bundle"⟩] }

/-- `UnmanagedVector new_unmanaged_vector(bool nil, const uint8_t *ptr, size_t length);` -/
def Proto.new_unmanaged_vector : Prototype :=
  { ret := .named "UnmanagedVector"
    name := "new_unmanaged_vector"
    params := [⟨.bool, "nil"⟩, ⟨.constPtr .uint8_t, "ptr"⟩, ⟨.size_t, "length"⟩] }

/-- `UnmanagedVector publish_module(Db db, bool _is_verbose, uint64_t gas_limit,
UnmanagedVector *errmsg, ByteSliceView sender, ByteSliceView module_bytes);` -/
def Proto.publish_module : Prototype :=
  { ret := .named "UnmanagedVector"
    name := "publish_module"
    params := [⟨.named "Db", "db"⟩, ⟨.bool, "_is_verbose"⟩, ⟨.uint64_t, "gas_limit"⟩,
      ⟨.ptr (.named "UnmanagedVector"), "errmsg"⟩, ⟨.named "ByteSliceView", "sender"⟩,
      ⟨.named "ByteSliceView", "module_bytes"⟩] }

/-- `UnmanagedVector query_contract(Db db, GoApi _api, GoQuerier _querier,
bool _is_verbose, uint64_t gas_limit, UnmanagedVector *errmsg, ByteSliceView message);` -/
def Proto.query_contract : Prototype :=
  { ret := .named "UnmanagedVector"
    name := "query_contract"
    params := [⟨.named "Db", "db"⟩, ⟨.named "GoApi", "_api"⟩, ⟨.named "GoQuerier", "_querier"⟩,
      ⟨.bool, "_is_verbose"⟩, ⟨.uint64_t, "gas_limit"⟩,
      ⟨.ptr (.named "UnmanagedVector"), "errmsg"⟩, ⟨.named "ByteSliceView", "message"⟩] }

/-- `const char *version_str(void);` -/
def Proto.version_str : Prototype :=
  { ret := .constPtr .char
    name := "version_str"
    params := [] }

/-- Every prototype the header declares, in the header's order. -/
def exports : List Prototype :=
  [ Proto.decode_module_bytes, Proto.decode_move_resource, Proto.decode_script_bytes,
    Proto.destroy_unmanaged_vector, Proto.execute_contract, Proto.execute_script,
    Proto.initialize, Proto.new_unmanaged_vector, Proto.publish_module,
    Proto.query_contract, Proto.version_str ]

/-- The names the header exports, in the header's order. -/
def exportNames : List String :=
  exports.map (fun p => p.name)

/-- The eleven names listed in section 6 of the spec, in the spec's order. -/
def specExportNames : List String :=
  [ "decode_module_bytes", "decode_move_resource", "decode_script_bytes", "initialize",
    "publish_module", "execute_contract", "execute_script", "query_contract",
    "new_unmanaged_vector", "destroy_unmanaged_vector", "version_str" ]

/-- The engine entry points of section 4.4 of the spec. -/
def entryPoints : List Prototype :=
  [ Proto.initialize, Proto.publish_module, Proto.execute_contract, Proto.execute_script,
    Proto.query_contract, Proto.decode_module_bytes, Proto.decode_script_bytes,
    Proto.decode_move_resource ]

/-- A capability object passed by value: a `Db`, `GoApi` or `GoQuerier`. -/
def isCapabilityParam (p : Param) : Bool :=
  capabilities.any (fun c => decide (p.type = .named c.name))

/-- The verbosity flag: `bool _is_verbose`. -/
def isVerboseFlag (p : Param) : Bool :=
  decide (p.type = .bool) && decide (p.name = "_is_verbose")

/-- The gas budget: `uint64_t gas_limit`. -/
def isGasLimit (p : Param) : Bool :=
  decide (p.type = .uint64_t) && decide (p.name = "gas_limit")

/-- The error output: `UnmanagedVector *errmsg`. -/
def isErrorOut (p : Param) : Bool :=
  decide (p.type = .ptr (.named "UnmanagedVector"))

/-- A data input: a `ByteSliceView` by value. -/
def isInputView (p : Param) : Bool :=
  decide (p.type = .named "ByteSliceView")

/-- Whether the prototype has a `gas_limit` parameter. -/
def takesGasLimit (f : Prototype) : Bool :=
  f.params.any isGasLimit

/-- Whether the prototype has a `_is_verbose` parameter. -/
def takesVerboseFlag (f : Prototype) : Bool :=
  f.params.any isVerboseFlag

/-- Drop the first parameter when it satisfies `q`. -/
def dropOptional (q : Param → Bool) : List Param → List Param
  | [] => []
  | p :: ps => if q p then ps else p :: ps

/-- The tail of a prototype after its leading part: the error output, then one
or more input views and nothing else. -/
def errorThenViews : List Param → Bool
  | [] => false
  | e :: views => isErrorOut e && !views.isEmpty && views.all isInputView

/-- The shape of section 4.4, taken from the spec's words:
`(capabilities…, gas_limit, out-error, input-views…) → OwnedBuffer`. -/
def specEntryShape (f : Prototype) : Bool :=
  match f.params.dropWhile isCapabilityParam with
  | [] => false
  | g :: rest => isGasLimit g && errorThenViews rest && decide (f.ret = .named "UnmanagedVector")

/-- The shape the header's entry points have: capability objects, then an
optional `_is_verbose` flag, then an optional `gas_limit`, then the error
output and the input views, returning an `UnmanagedVector` by value. -/
def entryShape (f : Prototype) : Bool :=
  errorThenViews (dropOptional isGasLimit (dropOptional isVerboseFlag
      (f.params.dropWhile isCapabilityParam)))
    && decide (f.ret = .named "UnmanagedVector")

/-! ## A concrete memory -/

/-- A memory holding the byte `0xAA` at address 16 and zero elsewhere, with the
allocator's break at address 64. -/
def sampleMemory : Memory :=
  { cell := fun a => if a = 16 then 0xAA else 0
    brk := 64 }

/-! ## Theorems -/

/-- C3: the integer encoding of the two status taxonomies. `ErrnoValue` has
`Success = 0`, `Other = 1`, `OutOfGas = 2` and no other variant; `GoError` has
`None = 0`, `Panic = 1`, `BadArgument = 2`, `OutOfGas = 3`,
`CannotSerialize = 4`, `User = 5`, `Unimplemented = 6`, `Other = -1` and no
other variant; both are carried as `int32_t` and every code fits in it. -/
theorem status_code_encoding :
    (ErrnoValue.Success.code = 0 ∧ ErrnoValue.Other.code = 1 ∧ ErrnoValue.OutOfGas.code = 2)
    ∧ (∀ e : ErrnoValue, e = .Success ∨ e = .Other ∨ e = .OutOfGas)
    ∧ (∀ n : Int, (∃ e : ErrnoValue, e.code = n) ↔ n = 0 ∨ n = 1 ∨ n = 2)
    ∧ (GoError.None.code = 0 ∧ GoError.Panic.code = 1 ∧ GoError.BadArgument.code = 2
        ∧ GoError.OutOfGas.code = 3 ∧ GoError.CannotSerialize.code = 4 ∧ GoError.User.code = 5
        ∧ GoError.Unimplemented.code = 6 ∧ GoError.Other.code = -1)
    ∧ (∀ g : GoError, g = .None ∨ g = .Panic ∨ g = .BadArgument ∨ g = .OutOfGas
        ∨ g = .CannotSerialize ∨ g = .User ∨ g = .Unimplemented ∨ g = .Other)
    ∧ (∀ n : Int, (∃ g : GoError, g.code = n) ↔
        n = 0 ∨ n = 1 ∨ n = 2 ∨ n = 3 ∨ n = 4 ∨ n = 5 ∨ n = 6 ∨ n = -1)
    ∧ (ErrnoValue.carrier = CType.int32_t ∧ GoError.carrier = CType.int32_t)
    ∧ (∀ e : ErrnoValue, ErrnoValue.carrier.holds e.code = true)
    ∧ (∀ g : GoError, GoError.carrier.holds g.code = true) := by
  refine ⟨⟨rfl, rfl, rfl⟩, ?_, ?_, ⟨rfl, rfl, rfl, rfl, rfl, rfl, rfl, rfl⟩, ?_, ?_,
    ⟨rfl, rfl⟩, ?_, ?_⟩
  · intro e
    cases e <;> simp
  · intro n
    constructor
    · rintro ⟨e, rfl⟩
      cases e <;> simp [ErrnoValue.code]
    · rintro (h | h | h)
      · exact ⟨.Success, h.symm⟩
      · exact ⟨.Other, h.symm⟩
      · exact ⟨.OutOfGas, h.symm⟩
  · intro g
    cases g <;> simp
  · intro n
    constructor
    · rintro ⟨g, rfl⟩
      cases g <;> simp [GoError.code]
    · rintro (h | h | h | h | h | h | h | h)
      · exact ⟨.None, h.symm⟩
      · exact ⟨.Panic, h.symm⟩
      · exact ⟨.BadArgument, h.symm⟩
      · exact ⟨.OutOfGas, h.symm⟩
      · exact ⟨.CannotSerialize, h.symm⟩
      · exact ⟨.User, h.symm⟩
      · exact ⟨.Unimplemented, h.symm⟩
      · exact ⟨.Other, h.symm⟩
  · intro e
    cases e <;> decide
  · intro g
    cases g <;> decide

/-- C9: the conversion from the `int32_t` a callback returns to a `GoError` is
defined on every integer and uses `Other` only as the fallback: 0 to 6 convert
to the variant with that code, an integer converts to `Other` exactly when it
lies outside 0..6 (so -1 does), and converting the code of any of the eight
variants gives that variant back. -/
theorem goError_conversion_fallback :
    (GoError.ofInt32 0 = .None ∧ GoError.ofInt32 1 = .Panic
        ∧ GoError.ofInt32 2 = .BadArgument ∧ GoError.ofInt32 3 = .OutOfGas
        ∧ GoError.ofInt32 4 = .CannotSerialize ∧ GoError.ofInt32 5 = .User
        ∧ GoError.ofInt32 6 = .Unimplemented)
    ∧ (∀ n : Int, GoError.ofInt32 n = .Other ↔ (n < 0 ∨ 6 < n))
    ∧ GoError.ofInt32 (-1) = .Other
    ∧ (∀ g : GoError, GoError.ofInt32 g.code = g) := by
  refine ⟨⟨rfl, rfl, rfl, rfl, rfl, rfl, rfl⟩, ?_, rfl, ?_⟩
  · intro n
    unfold GoError.ofInt32
    constructor
    · intro h
      by_contra hc
      have h0 : 0 ≤ n := by omega
      have h6 : n ≤ 6 := by omega
      interval_cases n <;> simp at h
    · intro h
      have h0 : n ≠ 0 := by omega
      have h1 : n ≠ 1 := by omega
      have h2 : n ≠ 2 := by omega
      have h3 : n ≠ 3 := by omega
      have h4 : n ≠ 4 := by omega
      have h5 : n ≠ 5 := by omega
      have h6 : n ≠ 6 := by omega
      simp [h0, h1, h2, h3, h4, h5, h6]
  · intro g
    cases g <;> rfl

/-- C10: the two taxonomies cannot be passed through one another unchanged.
Within each the codes are pairwise distinct; 0 is the code of the success
variant in both and of no other variant; and 0 is the only integer that is a
code in both with the same meaning: gas exhaustion is 2 in `ErrnoValue` and 3
in `GoError`, 2 is `BadArgument` in `GoError`, and 1 is `Other` in
`ErrnoValue` but `Panic` in `GoError`. -/
theorem taxonomies_agree_only_at_zero :
    Function.Injective ErrnoValue.code
    ∧ Function.Injective GoError.code
    ∧ (∀ e : ErrnoValue, e.code = 0 ↔ e = .Success)
    ∧ (∀ g : GoError, g.code = 0 ↔ g = .None)
    ∧ (∀ n : Int,
        (∃ e g, ErrnoValue.ofCode n = some e ∧ GoError.ofCode n = some g
          ∧ e.outcome = g.outcome) ↔ n = 0)
    ∧ (ErrnoValue.ofCode 2 = some .OutOfGas ∧ GoError.ofCode 3 = some .OutOfGas
        ∧ GoError.ofCode 2 = some .BadArgument)
    ∧ (ErrnoValue.ofCode 1 = some .Other ∧ GoError.ofCode 1 = some .Panic) := by
  refine ⟨?_, ?_, ?_, ?_, ?_, ⟨rfl, rfl, rfl⟩, ⟨rfl, rfl⟩⟩
  · intro a b h
    cases a <;> cases b <;> simp [ErrnoValue.code] at h ⊢
  · intro a b h
    cases a <;> cases b <;> simp [GoError.code] at h ⊢
  · intro e
    cases e <;> simp [ErrnoValue.code]
  · intro g
    cases g <;> simp [GoError.code]
  · intro n
    constructor
    · rintro ⟨e, g, he, hg, hm⟩
      have he2 : e.code = n := by
        have := List.find?_some he
        simpa using this
      have hg2 : g.code = n := by
        have := List.find?_some hg
        simpa using this
      cases e <;> cases g <;> simp [ErrnoValue.outcome, GoError.outcome] at hm
        <;> simp [ErrnoValue.code, GoError.code] at he2 hg2 <;> omega
    · rintro rfl
      exact ⟨.Success, .None, rfl, rfl, rfl⟩

/-- Counterexample to C4 as stated: `write_db` of the storage table is
`(db_t*, U8SliceView, U8SliceView, UnmanagedVector*)`; it has one trailing
`UnmanagedVector*`, not two, so it does not have the shape of section 4.3. -/
theorem write_db_not_spec_shape :
    Db ∈ capabilities ∧ Db_vtable.write_db ∈ Db.vtable
    ∧ specCallbackShape Db Db_vtable.write_db = false
    ∧ (Db_vtable.write_db.params.filter isOutBuffer).length = 1 := by
  decide

/-- C4 (amended): every callback of the storage, bank and query tables takes
the capability's opaque state pointer first, then one or more `U8SliceView`
requests, then one or two `UnmanagedVector*` outputs, and returns the
`int32_t` status; `read_db` and `query_external` have two trailing outputs,
`write_db`, `remove_db` and `bank_transfer` have exactly one. -/
theorem callback_shapes :
    (∀ c ∈ capabilities, ∀ f ∈ c.vtable,
        callbackShape 1 c f = true ∨ callbackShape 2 c f = true)
    ∧ callbackShape 2 Db Db_vtable.read_db = true
    ∧ callbackShape 1 Db Db_vtable.write_db = true
    ∧ callbackShape 1 Db Db_vtable.remove_db = true
    ∧ callbackShape 1 GoApi GoApi_vtable.bank_transfer = true
    ∧ callbackShape 2 GoQuerier Querier_vtable.query_external = true
    ∧ capabilities.map (fun c => c.vtable.map (fun f => f.name))
        = [["read_db", "write_db", "remove_db"], ["bank_transfer"], ["query_external"]] := by
  decide

/-- Counterexample to C5 as stated: `decode_module_bytes` is an entry point of
section 4.4 that takes no `gas_limit`, and `execute_contract`, which takes one,
has a `bool _is_verbose` between its capability objects and `gas_limit`;
neither has the shape `(capabilities…, gas_limit, out-error, input-views…)`. -/
theorem entry_points_not_spec_shape :
    Proto.decode_module_bytes ∈ entryPoints
    ∧ takesGasLimit Proto.decode_module_bytes = false
    ∧ specEntryShape Proto.decode_module_bytes = false
    ∧ Proto.execute_contract ∈ entryPoints
    ∧ takesVerboseFlag Proto.execute_contract = true
    ∧ specEntryShape Proto.execute_contract = false := by
  decide

/-- C5 (amended): every entry point of section 4.4 takes zero or more
capability objects, then an optional `bool _is_verbose`, then an optional
`uint64_t gas_limit`, then the `UnmanagedVector*` error output, then one or
more `ByteSliceView` inputs and nothing else, and returns an `UnmanagedVector`
by value. `gas_limit` is taken by `publish_module`, `execute_contract`,
`execute_script` and `query_contract` and by no other entry point;
`_is_verbose` by those four and `initialize`. -/
theorem entry_point_shapes :
    (∀ f ∈ entryPoints, entryShape f = true)
    ∧ (∀ f ∈ entryPoints, takesGasLimit f = true ↔
        f.name ∈ ["publish_module", "execute_contract", "execute_script", "query_contract"])
    ∧ (∀ f ∈ entryPoints, takesVerboseFlag f = true ↔
        f.name ∈ ["initialize", "publish_module", "execute_contract", "execute_script",
          "query_contract"])
    ∧ entryPoints.map (fun f => f.name)
        = ["initialize", "publish_module", "execute_contract", "execute_script",
          "query_contract", "decode_module_bytes", "decode_script_bytes",
          "decode_move_resource"]
    ∧ (∀ f ∈ entryPoints, f ∈ exports) := by
  decide

/-- C6: the functions the header exports are exactly the eleven names of the
spec: the exported names are a rearrangement of the spec's list, none is
repeated, and a name is exported if and only if the spec lists it. -/
theorem exported_names_exact :
    exportNames.Perm specExportNames
    ∧ exportNames.Nodup
    ∧ exportNames.length = 11
    ∧ (∀ n : String, n ∈ exportNames ↔ n ∈ specExportNames) := by
  have hperm : exportNames.Perm specExportNames := by decide
  exact ⟨hperm, by decide, by decide, fun n => hperm.mem_iff⟩

/-- Counterexample to C7 as stated: the flag is not a presence flag. The buffer
built from a present byte sequence has its flag false and the buffer built from
an absent one has it true; a record whose flag is false is read as a present
value, for the owned buffer and for both views. -/
theorem flag_false_is_present :
    (UnmanagedVector.new (some [0xAA]) sampleMemory).1.is_none = false
    ∧ (UnmanagedVector.new none sampleMemory).1.is_none = true
    ∧ ({ is_none := false, ptr := 16, len := 1, cap := 1 } : UnmanagedVector).consume
        sampleMemory = some [0xAA]
    ∧ (ByteSliceView.new none).is_nil = true
    ∧ ({ is_nil := false, ptr := 16, len := 1 } : ByteSliceView).read sampleMemory
        = some [0xAA]
    ∧ ({ is_none := false, ptr := 16, len := 1 } : U8SliceView).read sampleMemory
        = some [0xAA] := by
  refine ⟨rfl, rfl, ?_, rfl, ?_, ?_⟩ <;> decide

/-- C7 (amended): the fixed-layout records carry an absence flag as their first
field: `is_none` in `UnmanagedVector` (followed by `ptr`, `len`, `cap`),
`is_nil` in `ByteSliceView` and `is_none` in `U8SliceView` (followed by `ptr`,
`len`). The boolean is true exactly when the buffer or view is absent and false
exactly when it is present, so a record whose flag is true is an absent
value. -/
theorem absence_flag_first_field :
    (UnmanagedVector.decl.fields.head? = some ⟨.bool, "is_none"⟩
      ∧ UnmanagedVector.decl.fields.map (fun f => f.name) = ["is_none", "ptr", "len", "cap"])
    ∧ (ByteSliceView.decl.fields.head? = some ⟨.bool, "is_nil"⟩
      ∧ ByteSliceView.decl.fields.map (fun f => f.name) = ["is_nil", "ptr", "len"])
    ∧ (U8SliceView.decl.fields.head? = some ⟨.bool, "is_none"⟩
      ∧ U8SliceView.decl.fields.map (fun f => f.name) = ["is_none", "ptr", "len"])
    ∧ (∀ (b : Option (List Byte)) (m : Memory),
        (UnmanagedVector.new b m).1.is_none = true ↔ b = none)
    ∧ (∀ (nil : Bool) (p n : Nat) (m : Memory),
        (new_unmanaged_vector nil p n m).1.is_none = nil)
    ∧ (∀ (v : UnmanagedVector) (m : Memory), v.consume m = none ↔ v.is_none = true)
    ∧ (∀ r : Option (Nat × Nat), (ByteSliceView.new r).is_nil = true ↔ r = none)
    ∧ (∀ (v : ByteSliceView) (m : Memory), v.read m = none ↔ v.is_nil = true)
    ∧ (∀ r : Option (Nat × Nat), (U8SliceView.new r).is_none = true ↔ r = none)
    ∧ (∀ (v : U8SliceView) (m : Memory), v.read m = none ↔ v.is_none = true) := by
  refine ⟨⟨rfl, rfl⟩, ⟨rfl, rfl⟩, ⟨rfl, rfl⟩, ?_, ?_, ?_, ?_, ?_, ?_, ?_⟩
  · intro b m
    cases b <;> simp [UnmanagedVector.new, Memory.alloc]
  · intro nil p n m
    cases nil <;> simp [new_unmanaged_vector, UnmanagedVector.new, Memory.alloc]
  · intro v m
    cases hv : v.is_none <;> simp [UnmanagedVector.consume, hv]
  · intro r
    rcases r with _ | ⟨p, n⟩ <;> simp [ByteSliceView.new]
  · intro v m
    cases hv : v.is_nil <;> simp [ByteSliceView.read, hv]
  · intro r
    rcases r with _ | ⟨p, n⟩ <;> simp [U8SliceView.new]
  · intro v m
    cases hv : v.is_none <;> simp [U8SliceView.read, hv]

end Novaproc
